import Mathlib

/-!
Shallow embedding of the rv50x_lwm2m_manager core: the LWM2M server handlers
(src/server/lwm2m.ts) and the persistence operations they and the tRPC router
(src/unnamed/part_003) call (src/server/db.ts), over the row types of
src/drizzle/schema.ts.

Modelling conventions:
  * the database is a pure value (lists of rows in insertion order); a
    drizzle select-where-limit-1 is List.find?, an update is List.map;
  * MySQL timestamps and Date.now() are Nat, passed in explicitly as now;
  * JavaScript string truthiness (if (x) on string | undefined | null) is
    jsTruthy : Option String -> Option String;
  * primary-key and unique-column violations make an insert throw, which the
    source catches and turns into a null result with the table unchanged;
  * columns the modelled operations never read or write (tags, groupId,
    firmwareVersion, lwm2mVersion, location, createdAt/updatedAt of gateways)
    are omitted from the row structures.
-/

/-- Gateway status enum of src/drizzle/schema.ts (gateways.status):
online | offline | error. There is no stale member. -/
inductive GatewayStatus
  | online
  | offline
  | error
deriving DecidableEq, Repr

/-- Command status enum (lwm2m_commands.status): pending | sent | success | failed. -/
inductive CommandStatus
  | pending
  | sent
  | success
  | failed
deriving DecidableEq, Repr

/-- Command type enum (lwm2m_commands.commandType). -/
inductive CommandType
  | read
  | write
  | execute
deriving DecidableEq, Repr

/-- Alert type enum (alerts.alertType). -/
inductive AlertType
  | offline
  | low_signal
  | high_error_rate
  | firmware_mismatch
  | sim_change
  | connectivity_lost
  | custom
deriving DecidableEq, Repr

/-- Alert severity enum (alerts.severity). -/
inductive Severity
  | info
  | warning
  | critical
deriving DecidableEq, Repr

/-- Row of the gateways table (the Device record), restricted to the columns
the modelled operations touch. schema default: status = offline. -/
structure GatewayRow where
  id : String
  name : String
  endpoint : String
  ipAddress : Option String
  status : GatewayStatus
  lastSeen : Option Nat
  ownerId : String
  serialNumber : Option String
deriving DecidableEq, Repr

/-- Row of lwm2m_resource_values. timestamp has defaultNow. -/
structure ResourceValueRow where
  id : String
  resourceId : String
  gatewayId : String
  value : String
  timestamp : Nat
deriving DecidableEq, Repr

/-- Row of lwm2m_commands. schema default: status = pending. -/
structure CommandRow where
  id : String
  gatewayId : String
  resourceId : String
  commandType : CommandType
  value : Option String
  status : CommandStatus
  error : Option String
  createdAt : Nat
  completedAt : Option Nat
deriving DecidableEq, Repr

/-- Row of alerts. schema defaults: isResolved = false, createdAt = now. -/
structure AlertRow where
  id : String
  gatewayId : String
  alertType : AlertType
  severity : Severity
  message : String
  isResolved : Bool
  createdAt : Nat
  resolvedAt : Option Nat
deriving DecidableEq, Repr

/-- The database state: the four tables the core touches, rows in insertion
order. -/
structure Db where
  gateways : List GatewayRow
  resourceValues : List ResourceValueRow
  commands : List CommandRow
  alerts : List AlertRow
deriving DecidableEq, Repr

def emptyDb : Db := ⟨[], [], [], []⟩

/-- JavaScript truthiness on string | undefined | null: undefined, null and
the empty string are falsy. -/
def jsTruthy : Option String → Option String
  | none => none
  | some s => if s == "" then none else some s

/-- url.searchParams.get on a parsed query string (first match or null). -/
def lookupQ (q : List (String × String)) (k : String) : Option String :=
  (q.find? (fun p => p.1 == k)).map (fun p => p.2)

-- ===========================================================================
-- src/server/db.ts
-- ===========================================================================

/-- db.ts getGatewayByEndpoint: select from gateways where endpoint = ep
limit 1. -/
def getGatewayByEndpoint (db : Db) (ep : String) : Option GatewayRow :=
  db.gateways.find? (fun g => g.endpoint == ep)

/-- db.ts getGateway: select from gateways where id = i limit 1. -/
def getGateway (db : Db) (i : String) : Option GatewayRow :=
  db.gateways.find? (fun g => g.id == i)

/-- The per-row effect of db.ts updateGatewayStatus: set status and
lastSeen = now, and ipAddress only when the argument is truthy. -/
def gwApply (i : String) (st : GatewayStatus) (now : Nat) (ip : Option String)
    (g : GatewayRow) : GatewayRow :=
  if g.id == i then
    { g with
      status := st
      lastSeen := some now
      ipAddress := match jsTruthy ip with
        | some a => some a
        | none => g.ipAddress }
  else g

/-- db.ts updateGatewayStatus(id, status, ipAddress?): update gateways set
{status, lastSeen: new Date(), ipAddress?} where id = i. -/
def updateGatewayStatus (db : Db) (i : String) (st : GatewayStatus) (now : Nat)
    (ip : Option String) : Db :=
  { db with gateways := db.gateways.map (gwApply i st now ip) }

/-- Input of db.ts createGateway. -/
structure CreateGatewayInput where
  id : String
  name : String
  endpoint : String
  ipAddress : Option String
  ownerId : String
  serialNumber : Option String
deriving DecidableEq, Repr

/-- db.ts createGateway: insert into gateways (status defaults to offline,
lastSeen to null), then select the new row back by id. The insert throws on a
duplicate id (primary key) or duplicate endpoint (unique constraint), which
the source catches and turns into null with the table unchanged. -/
def createGateway (db : Db) (inp : CreateGatewayInput) :
    Db × Option GatewayRow :=
  if db.gateways.any (fun g => g.id == inp.id || g.endpoint == inp.endpoint)
  then (db, none)
  else
    let row : GatewayRow :=
      { id := inp.id
        name := inp.name
        endpoint := inp.endpoint
        ipAddress := inp.ipAddress
        status := GatewayStatus.offline
        lastSeen := none
        ownerId := inp.ownerId
        serialNumber := inp.serialNumber }
    ({ db with gateways := db.gateways ++ [row] }, some row)

/-- db.ts recordResourceValue: insert into lwm2m_resource_values, timestamp
defaulting to now; throws (null, unchanged) on a duplicate id. -/
def recordResourceValue (db : Db) (i resourceId gatewayId value : String)
    (timestamp : Option Nat) (now : Nat) : Db × Option ResourceValueRow :=
  if db.resourceValues.any (fun r => r.id == i) then (db, none)
  else
    let row : ResourceValueRow :=
      ⟨i, resourceId, gatewayId, value, timestamp.getD now⟩
    ({ db with resourceValues := db.resourceValues ++ [row] }, some row)

/-- db.ts getLatestResourceValue: select from lwm2m_resource_values where
resourceId = rid orderBy timestamp limit 1. drizzle orders ascending by
default, so this returns the first row of the ascending sort: the row with
the least timestamp (the first such row on ties). -/
def getLatestResourceValue (db : Db) (rid : String) :
    Option ResourceValueRow :=
  match db.resourceValues.filter (fun r => r.resourceId == rid) with
  | [] => none
  | r :: rs =>
      some (rs.foldl (fun best x => if x.timestamp < best.timestamp then x else best) r)

/-- db.ts createCommand: insert into lwm2m_commands (status defaulting to
pending, error/completedAt null, createdAt now), then select the row back;
throws (null, unchanged) on a duplicate id. There is no check that the
gatewayId refers to an existing gateway. -/
def createCommand (db : Db) (i gatewayId resourceId : String)
    (commandType : CommandType) (value : Option String)
    (status : Option CommandStatus) (now : Nat) : Db × Option CommandRow :=
  if db.commands.any (fun c => c.id == i) then (db, none)
  else
    let row : CommandRow :=
      { id := i
        gatewayId := gatewayId
        resourceId := resourceId
        commandType := commandType
        value := value
        status := status.getD CommandStatus.pending
        error := none
        createdAt := now
        completedAt := none }
    ({ db with commands := db.commands ++ [row] }, some row)

/-- db.ts getCommand: select from lwm2m_commands where id = i limit 1. -/
def getCommand (db : Db) (i : String) : Option CommandRow :=
  db.commands.find? (fun c => c.id == i)

/-- The per-row effect of db.ts updateCommandStatus: set the requested status
unconditionally; set error only when truthy; stamp completedAt only when the
new status is success or failed. -/
def cmdApply (i : String) (st : CommandStatus) (err : Option String)
    (now : Nat) (c : CommandRow) : CommandRow :=
  if c.id == i then
    { c with
      status := st
      error := match jsTruthy err with
        | some e => some e
        | none => c.error
      completedAt :=
        if st == CommandStatus.success || st == CommandStatus.failed
        then some now else c.completedAt }
  else c

/-- db.ts updateCommandStatus(id, status, error?): unconditional update of
lwm2m_commands where id = i; no status-transition guard of any kind. -/
def updateCommandStatus (db : Db) (i : String) (st : CommandStatus)
    (err : Option String) (now : Nat) : Db :=
  { db with commands := db.commands.map (cmdApply i st err now) }

/-- db.ts listPendingCommands: select from lwm2m_commands where
gatewayId = gid and status = pending. The gateway row itself is never
consulted. -/
def listPendingCommands (db : Db) (gid : String) : List CommandRow :=
  db.commands.filter
    (fun c => c.gatewayId == gid && c.status == CommandStatus.pending)

/-- Input of db.ts createAlert. -/
structure CreateAlertInput where
  id : String
  gatewayId : String
  alertType : AlertType
  severity : Severity
  message : String
deriving DecidableEq, Repr

/-- db.ts createAlert: insert into alerts (isResolved defaulting to false,
resolvedAt null, createdAt now), then select the row back; throws (null,
unchanged) on a duplicate id. No check for an existing unresolved alert of
the same type for the same gateway. -/
def createAlert (db : Db) (inp : CreateAlertInput) (now : Nat) :
    Db × Option AlertRow :=
  if db.alerts.any (fun a => a.id == inp.id) then (db, none)
  else
    let row : AlertRow :=
      { id := inp.id
        gatewayId := inp.gatewayId
        alertType := inp.alertType
        severity := inp.severity
        message := inp.message
        isResolved := false
        createdAt := now
        resolvedAt := none }
    ({ db with alerts := db.alerts ++ [row] }, some row)

/-- db.ts listAlerts(gatewayId?, unresolved): filter by gateway when given
and by isResolved = false when unresolved is true. -/
def listAlerts (db : Db) (gid : Option String) (unresolved : Bool) :
    List AlertRow :=
  db.alerts.filter (fun a =>
    (match gid with | some g => a.gatewayId == g | none => true)
    && (!unresolved || a.isResolved == false))

/-- The per-row effect of db.ts resolveAlert. -/
def alertApply (i : String) (now : Nat) (a : AlertRow) : AlertRow :=
  if a.id == i then { a with isResolved := true, resolvedAt := some now }
  else a

/-- db.ts resolveAlert(alertId): update alerts set
{isResolved: true, resolvedAt: new Date()} where id = i — unconditional,
with no already-resolved guard. -/
def resolveAlert (db : Db) (i : String) (now : Nat) : Db :=
  { db with alerts := db.alerts.map (alertApply i now) }

-- ===========================================================================
-- src/unnamed/part_003 (tRPC router) wrappers used by the claims
-- ===========================================================================

/-- part_003 commands.create: builds the id cmd-gatewayId-resourceId-now and
calls db.createCommand with no device-existence check. -/
def commandsCreate (db : Db) (gatewayId resourceId : String)
    (commandType : CommandType) (value : Option String) (now : Nat) :
    Db × Option CommandRow :=
  createCommand db
    ("cmd-" ++ gatewayId ++ "-" ++ resourceId ++ "-" ++ toString now)
    gatewayId resourceId commandType value none now

-- ===========================================================================
-- src/server/lwm2m.ts — LWM2MServer state and CoAP handlers
-- ===========================================================================

/-- Events emitted by the LWM2MServer EventEmitter. -/
inductive LwEvent
  | clientRegistered (endpoint gatewayId : String)
  | clientUpdated (endpoint : String)
  | clientDeregistered (endpoint : String)
deriving DecidableEq, Repr

/-- The in-memory server state: the database plus the registeredClients Map
(endpoint to lastSeen), modelled as an association list in Map insertion
order. -/
structure ServerState where
  db : Db
  registeredClients : List (String × Nat)
deriving DecidableEq, Repr

/-- Result of one CoAP handler: the new state, the response code string, and
the events emitted. -/
structure HandlerResult where
  state : ServerState
  code : String
  events : List LwEvent
deriving DecidableEq, Repr

/-- Map.set: replace in place when the key exists, else append. -/
def setClient (l : List (String × Nat)) (ep : String) (t : Nat) :
    List (String × Nat) :=
  if l.any (fun p => p.1 == ep) then
    l.map (fun p => if p.1 == ep then (ep, t) else p)
  else l ++ [(ep, t)]

/-- Map.delete. -/
def deleteClient (l : List (String × Nat)) (ep : String) :
    List (String × Nat) :=
  l.filter (fun p => !(p.1 == ep))

/-- lwm2m.ts isClientRegistered: registeredClients.has(endpoint). -/
def isClientRegistered (s : ServerState) (ep : String) : Bool :=
  s.registeredClients.any (fun p => p.1 == ep)

/-- lwm2m.ts getRegisteredClients: the keys of the map. -/
def getRegisteredClients (s : ServerState) : List String :=
  s.registeredClients.map (fun p => p.1)

/-- lwm2m.ts handleRegistration. Inputs: the parsed query string of the POST
/rd request, the optional req.rsinfo address, and the clock. The lt, lwm2m
and b parameters are read (with defaults 86400, 1.0.0, U) but only logged:
they never reach the state, so they are not parameters of the model. A falsy
ep (absent or empty) answers 4.00 with no effect. Otherwise the gateway is
looked up by endpoint and created if absent (id gw-endpoint-now, owner
system, status defaulting to offline); on success the gateway is set online
with the remote address, the endpoint is put in registeredClients, the
response is 2.01 and a client-registered event is emitted; if creation
failed the response is 5.00. -/
def handleRegistration (s : ServerState) (query : List (String × String))
    (rsAddr : Option String) (now : Nat) : HandlerResult :=
  match jsTruthy (lookupQ query "ep") with
  | none => ⟨s, "4.00", []⟩
  | some ep =>
    let remoteAddress := (jsTruthy rsAddr).getD "unknown"
    let found := getGatewayByEndpoint s.db ep
    let created :=
      match found with
      | some g => (s.db, some g)
      | none =>
          createGateway s.db
            { id := "gw-" ++ ep ++ "-" ++ toString now
              name := ep
              endpoint := ep
              ipAddress := some remoteAddress
              ownerId := "system"
              serialNumber := some ep }
    match created with
    | (db1, some g) =>
        let db2 := updateGatewayStatus db1 g.id GatewayStatus.online now
          (some remoteAddress)
        ⟨⟨db2, setClient s.registeredClients ep now⟩, "2.01",
          [LwEvent.clientRegistered ep g.id]⟩
    | (db1, none) => ⟨⟨db1, s.registeredClients⟩, "5.00", []⟩

/-- lwm2m.ts handleUpdate (PUT /rd/...). Inputs: the non-empty path segments,
the parsed query and the clock. Fewer than two segments or a first segment
other than rd answers 4.04. A falsy ep answers 4.00. An unknown endpoint
answers 4.04 with no effect. A known endpoint — whatever its stored status —
is set online (no address update), re-put in registeredClients, answered
2.04, and a client-updated event is emitted. -/
def handleUpdate (s : ServerState) (pathParts : List String)
    (query : List (String × String)) (now : Nat) : HandlerResult :=
  if pathParts.length < 2 || !(pathParts.headD "" == "rd") then
    ⟨s, "4.04", []⟩
  else
    match jsTruthy (lookupQ query "ep") with
    | none => ⟨s, "4.00", []⟩
    | some ep =>
      match getGatewayByEndpoint s.db ep with
      | none => ⟨s, "4.04", []⟩
      | some g =>
          let db2 := updateGatewayStatus s.db g.id GatewayStatus.online now
            none
          ⟨⟨db2, setClient s.registeredClients ep now⟩, "2.04",
            [LwEvent.clientUpdated ep]⟩

/-- lwm2m.ts handleDeregistration (DELETE /rd). A falsy ep answers 4.00; an
unknown endpoint answers 4.04; a known one is set offline, removed from
registeredClients, answered 2.02, and a client-deregistered event is
emitted. -/
def handleDeregistration (s : ServerState) (query : List (String × String))
    (now : Nat) : HandlerResult :=
  match jsTruthy (lookupQ query "ep") with
  | none => ⟨s, "4.00", []⟩
  | some ep =>
    match getGatewayByEndpoint s.db ep with
    | none => ⟨s, "4.04", []⟩
    | some g =>
        let db2 := updateGatewayStatus s.db g.id GatewayStatus.offline now
          none
        ⟨⟨db2, deleteClient s.registeredClients ep⟩, "2.02",
          [LwEvent.clientDeregistered ep]⟩

-- ===========================================================================
-- Helper lemmas
-- ===========================================================================

theorem endpoint_gwApply (i : String) (st : GatewayStatus) (now : Nat)
    (ip : Option String) (g : GatewayRow) :
    (gwApply i st now ip g).endpoint = g.endpoint := by
  unfold gwApply
  split <;> rfl

theorem find?_map_endpoint (l : List GatewayRow) (f : GatewayRow → GatewayRow)
    (hf : ∀ g, (f g).endpoint = g.endpoint) (ep : String) :
    (l.map f).find? (fun g => g.endpoint == ep)
      = (l.find? (fun g => g.endpoint == ep)).map f := by
  have hp : ((fun g : GatewayRow => g.endpoint == ep) ∘ f)
      = (fun g : GatewayRow => g.endpoint == ep) := by
    funext g
    simp [Function.comp, hf g]
  rw [List.find?_map, hp]

theorem getGatewayByEndpoint_update (db : Db) (i : String)
    (st : GatewayStatus) (now : Nat) (ip : Option String) (ep : String) :
    getGatewayByEndpoint (updateGatewayStatus db i st now ip) ep
      = (getGatewayByEndpoint db ep).map (gwApply i st now ip) := by
  unfold getGatewayByEndpoint updateGatewayStatus
  exact find?_map_endpoint _ _ (fun g => endpoint_gwApply i st now ip g) ep

theorem gwApply_status_self (g : GatewayRow) (st : GatewayStatus) (now : Nat)
    (ip : Option String) :
    (gwApply g.id st now ip g).status = st := by
  unfold gwApply
  simp

theorem setClient_has (l : List (String × Nat)) (ep : String) (t : Nat) :
    (setClient l ep t).any (fun p => p.1 == ep) = true := by
  unfold setClient
  split
  case isTrue h =>
      simp only [List.any_map, List.any_eq_true] at h ⊢
      obtain ⟨p, hp, hpe⟩ := h
      exact ⟨p, hp, by simp [Function.comp, hpe]⟩
  case isFalse h =>
      simp

theorem isClientRegistered_setClient (db : Db) (l : List (String × Nat))
    (ep : String) (t : Nat) :
    isClientRegistered ⟨db, setClient l ep t⟩ ep = true := by
  unfold isClientRegistered
  exact setClient_has l ep t

/-- The gateway row created by handleRegistration for a new endpoint. -/
def regRow (ep : String) (rsAddr : Option String) (now : Nat) : GatewayRow :=
  { id := "gw-" ++ ep ++ "-" ++ toString now
    name := ep
    endpoint := ep
    ipAddress := some ((jsTruthy rsAddr).getD "unknown")
    status := GatewayStatus.offline
    lastSeen := none
    ownerId := "system"
    serialNumber := some ep }

theorem handleRegistration_found (s : ServerState)
    (query : List (String × String)) (rsAddr : Option String) (now : Nat)
    (ep : String) (g : GatewayRow)
    (hep : jsTruthy (lookupQ query "ep") = some ep)
    (hg : getGatewayByEndpoint s.db ep = some g) :
    handleRegistration s query rsAddr now =
      ⟨⟨updateGatewayStatus s.db g.id GatewayStatus.online now
          (some ((jsTruthy rsAddr).getD "unknown")),
        setClient s.registeredClients ep now⟩, "2.01",
        [LwEvent.clientRegistered ep g.id]⟩ := by
  unfold handleRegistration
  rw [hep]
  dsimp only
  rw [hg]

theorem handleRegistration_new (s : ServerState)
    (query : List (String × String)) (rsAddr : Option String) (now : Nat)
    (ep : String)
    (hep : jsTruthy (lookupQ query "ep") = some ep)
    (hg : getGatewayByEndpoint s.db ep = none)
    (hdup : (s.db.gateways.any (fun g =>
        g.id == ("gw-" ++ ep ++ "-" ++ toString now) || g.endpoint == ep))
      = false) :
    handleRegistration s query rsAddr now =
      ⟨⟨updateGatewayStatus
          { s.db with gateways := s.db.gateways ++ [regRow ep rsAddr now] }
          ("gw-" ++ ep ++ "-" ++ toString now) GatewayStatus.online now
          (some ((jsTruthy rsAddr).getD "unknown")),
        setClient s.registeredClients ep now⟩, "2.01",
        [LwEvent.clientRegistered ep ("gw-" ++ ep ++ "-" ++ toString now)]⟩ := by
  unfold handleRegistration createGateway
  rw [hep]
  dsimp only
  rw [hg, hdup]
  rfl

theorem handleRegistration_dup (s : ServerState)
    (query : List (String × String)) (rsAddr : Option String) (now : Nat)
    (ep : String)
    (hep : jsTruthy (lookupQ query "ep") = some ep)
    (hg : getGatewayByEndpoint s.db ep = none)
    (hdup : (s.db.gateways.any (fun g =>
        g.id == ("gw-" ++ ep ++ "-" ++ toString now) || g.endpoint == ep))
      = true) :
    handleRegistration s query rsAddr now =
      ⟨⟨s.db, s.registeredClients⟩, "5.00", []⟩ := by
  unfold handleRegistration createGateway
  rw [hep]
  dsimp only
  rw [hg, hdup]
  rfl

theorem handleUpdate_known (s : ServerState) (pathParts : List String)
    (query : List (String × String)) (now : Nat) (ep : String)
    (g : GatewayRow)
    (hpath : (pathParts.length < 2 || !(pathParts.headD "" == "rd")) = false)
    (hep : jsTruthy (lookupQ query "ep") = some ep)
    (hg : getGatewayByEndpoint s.db ep = some g) :
    handleUpdate s pathParts query now =
      ⟨⟨updateGatewayStatus s.db g.id GatewayStatus.online now none,
        setClient s.registeredClients ep now⟩, "2.04",
        [LwEvent.clientUpdated ep]⟩ := by
  unfold handleUpdate
  rw [hpath]
  dsimp only
  rw [hep]
  dsimp only
  rw [hg]
  rfl

theorem handleUpdate_unknown (s : ServerState) (pathParts : List String)
    (query : List (String × String)) (now : Nat) (ep : String)
    (hpath : (pathParts.length < 2 || !(pathParts.headD "" == "rd")) = false)
    (hep : jsTruthy (lookupQ query "ep") = some ep)
    (hg : getGatewayByEndpoint s.db ep = none) :
    handleUpdate s pathParts query now = ⟨s, "4.04", []⟩ := by
  unfold handleUpdate
  rw [hpath]
  dsimp only
  rw [hep]
  dsimp only
  rw [hg]
  rfl

-- ===========================================================================
-- Concrete fixtures
-- ===========================================================================

/-- Two observations for resource res-1: the first-inserted row has the
smaller timestamp 5, the later-inserted row the greater timestamp 9. -/
def dbC1 : Db :=
  { emptyDb with resourceValues :=
      [⟨"v1", "res-1", "gw-1", "a", 5⟩, ⟨"v2", "res-1", "gw-1", "b", 9⟩] }

/-- One command already in the terminal success state (completedAt 5). -/
def dbC3 : Db :=
  { emptyDb with commands :=
      [⟨"c1", "g1", "r1", CommandType.read, none, CommandStatus.success,
        none, 0, some 5⟩] }

/-- A deregistered device: the gateway record exists with status offline and
the endpoint e is not in registeredClients. -/
def sC4 : ServerState :=
  ⟨{ emptyDb with gateways :=
      [⟨"gw-e-0", "e", "e", some "1.2.3.4", GatewayStatus.offline, some 3,
        "system", some "e"⟩] }, []⟩

/-- One unresolved offline alert for gateway g1. -/
def dbC6 : Db :=
  { emptyDb with alerts :=
      [⟨"a1", "g1", AlertType.offline, Severity.warning, "down", false, 0,
        none⟩] }

/-- The database after raising the same alert type for the same gateway a
second time while the first is still unresolved. -/
def dbC6after : Db :=
  (createAlert dbC6 ⟨"a2", "g1", AlertType.offline, Severity.warning, "down"⟩
    5).1

/-- One alert already resolved at time 5. -/
def dbC7 : Db :=
  { emptyDb with alerts :=
      [⟨"a1", "g1", AlertType.offline, Severity.warning, "down", true, 0,
        some 5⟩] }

/-- A known but non-registered device (status offline, not in the
registeredClients map) with one pending command queued against it. -/
def dbC8 : Db :=
  { emptyDb with
      gateways :=
        [⟨"g1", "d", "e1", none, GatewayStatus.offline, some 0, "system",
          none⟩]
      commands :=
        [⟨"c1", "g1", "r1", CommandType.read, none, CommandStatus.pending,
          none, 0, none⟩] }

/-- The state produced by registering endpoint rv50x-02 (query lt=5) on an
empty server at time 0. -/
def c9Reg : HandlerResult :=
  handleRegistration ⟨emptyDb, []⟩ [("ep", "rv50x-02"), ("lt", "5")]
    (some "10.0.0.1") 0

-- ===========================================================================
-- Claims
-- ===========================================================================

/-- C1: the latest-value query does NOT return the row with the greatest
observation timestamp. On two rows for res-1 with timestamps 5 (inserted
first) and 9 (inserted later), getLatestResourceValue returns the
timestamp-5 row — it orders by timestamp ascending and takes the first row,
so it returns the earliest observation; only the empty case (NotFound/null)
behaves as claimed. -/
theorem c1_getLatest_returns_earliest :
    getLatestResourceValue dbC1 "res-1" = some ⟨"v1", "res-1", "gw-1", "a", 5⟩
  ∧ ⟨"v2", "res-1", "gw-1", "b", 9⟩ ∈ dbC1.resourceValues
  ∧ getLatestResourceValue dbC1 "res-1"
      ≠ some ⟨"v2", "res-1", "gw-1", "b", 9⟩
  ∧ getLatestResourceValue dbC1 "absent" = none := by
  refine ⟨rfl, by decide, by decide, rfl⟩

/-- C3 counterexample: a command in the terminal success state is moved back
to pending by a later updateCommandStatus call — the status progression is
not monotonic and terminal states are not immutable. -/
theorem c3_counterexample :
    (getCommand dbC3 "c1").map (fun c => c.status) = some CommandStatus.success
  ∧ (getCommand (updateCommandStatus dbC3 "c1" CommandStatus.pending none 9)
      "c1").map (fun c => c.status) = some CommandStatus.pending := by
  refine ⟨rfl, by decide⟩

/-- C6 counterexample: raising the offline alert for gateway g1 a second time
while the first is unresolved yields two unresolved offline alert rows, not
one — createAlert inserts unconditionally. -/
theorem c6_counterexample :
    ((listAlerts dbC6 (some "g1") true).filter
      (fun a => a.alertType == AlertType.offline)).length = 1
  ∧ ((listAlerts dbC6after (some "g1") true).filter
      (fun a => a.alertType == AlertType.offline)).length = 2 := by
  refine ⟨by decide, by decide⟩

/-- C7 counterexample: resolving an already-resolved alert is not a no-op —
the stored resolvedAt 5 is overwritten with the new time 9. -/
theorem c7_counterexample :
    (resolveAlert dbC7 "a1" 9).alerts
      = [⟨"a1", "g1", AlertType.offline, Severity.warning, "down", true, 0,
          some 9⟩]
  ∧ resolveAlert dbC7 "a1" 9 ≠ dbC7 := by
  refine ⟨by decide, by decide⟩

/-- C8 counterexample: the device g1 is known but not Registered (status
offline, endpoint absent from registeredClients), yet listPendingCommands
still yields its pending command rather than none. -/
theorem c8_counterexample :
    (getGateway dbC8 "g1").map (fun g => g.status) = some GatewayStatus.offline
  ∧ isClientRegistered ⟨dbC8, []⟩ "e1" = false
  ∧ listPendingCommands dbC8 "g1"
      = [⟨"c1", "g1", "r1", CommandType.read, none, CommandStatus.pending,
          none, 0, none⟩] := by
  refine ⟨by decide, by decide, by decide⟩

/-- C9: the code has no sweepStale and no Stale state. Registering rv50x-02
with lifetime parameter lt=5 produces exactly the same state as registering
without any lifetime (lt is parsed but never stored), the client is
registered with the gateway online, and the gateway status type has only the
members online, offline and error — there is no stale member any device
could transition to, so no device ever degrades to Stale by the passage of
time. -/
theorem c9_no_stale_no_sweep :
    c9Reg = handleRegistration ⟨emptyDb, []⟩ [("ep", "rv50x-02")]
      (some "10.0.0.1") 0
  ∧ c9Reg.code = "2.01"
  ∧ isClientRegistered c9Reg.state "rv50x-02" = true
  ∧ (getGatewayByEndpoint c9Reg.state.db "rv50x-02").map (fun g => g.status)
      = some GatewayStatus.online
  ∧ (∀ st : GatewayStatus, st = GatewayStatus.online
      ∨ st = GatewayStatus.offline ∨ st = GatewayStatus.error) := by
  refine ⟨by decide, by decide, by decide, by decide, ?_⟩
  intro st
  cases st
  · exact Or.inl rfl
  · exact Or.inr (Or.inl rfl)
  · exact Or.inr (Or.inr rfl)

/-- C10: a registration request whose query lacks the ep parameter is
answered 4.00 Bad Request and the state is returned unchanged — no gateway
row is created or updated, the registeredClients map is untouched and no
event is emitted. -/
theorem c10_missing_ep_bad_request (s : ServerState)
    (query : List (String × String)) (rsAddr : Option String) (now : Nat)
    (h : lookupQ query "ep" = none) :
    handleRegistration s query rsAddr now = ⟨s, "4.00", []⟩ := by
  unfold handleRegistration
  rw [h]
  rfl

/-- Witness for C10 at the empty query. -/
theorem c10_missing_ep_bad_request_witness :
    handleRegistration ⟨emptyDb, []⟩ [] (some "1.1.1.1") 7
      = ⟨⟨emptyDb, []⟩, "4.00", []⟩ :=
  c10_missing_ep_bad_request ⟨emptyDb, []⟩ [] (some "1.1.1.1") 7 rfl

/-- After updating the status (by the id of the row that the
endpoint-lookup finds) the endpoint-lookup returns that row with the new
status. -/
theorem status_after_update (db : Db) (ep : String) (r : GatewayRow)
    (st : GatewayStatus) (now : Nat) (ip : Option String)
    (h : getGatewayByEndpoint db ep = some r) :
    (getGatewayByEndpoint (updateGatewayStatus db r.id st now ip) ep).map
      (fun g => g.status) = some st := by
  rw [getGatewayByEndpoint_update, h]
  simp [gwApply_status_self]

/-- C2 counterexample: on a database with no gateway rows at all, submitting
a command via the router (commands.create) succeeds and creates a pending
Command row — it does not fail with DeviceUnknown. -/
theorem c2_counterexample :
    emptyDb.gateways = []
  ∧ (commandsCreate emptyDb "g1" "r1" CommandType.read none 0).2
      = some ⟨"cmd-g1-r1-0", "g1", "r1", CommandType.read, none,
          CommandStatus.pending, none, 0, none⟩
  ∧ (commandsCreate emptyDb "g1" "r1" CommandType.read none 0).1.commands.length
      = 1 := by
  refine ⟨rfl, by decide, by decide⟩

/-- C2 amended: command submission performs no device-existence check and
cannot fail with DeviceUnknown — for any database whatever its gateways
table contains (including none for the given gatewayId), commands.create
inserts a pending Command row and leaves the gateways table untouched; the
only failure mode is a duplicate command id. -/
theorem c2_create_unchecked (db : Db) (gatewayId resourceId : String)
    (ct : CommandType) (v : Option String) (now : Nat)
    (hfresh : (db.commands.any (fun c =>
        c.id == ("cmd-" ++ gatewayId ++ "-" ++ resourceId ++ "-"
          ++ toString now))) = false) :
    (commandsCreate db gatewayId resourceId ct v now).2
      = some ⟨"cmd-" ++ gatewayId ++ "-" ++ resourceId ++ "-" ++ toString now,
          gatewayId, resourceId, ct, v, CommandStatus.pending, none, now, none⟩
  ∧ (commandsCreate db gatewayId resourceId ct v now).1.commands
      = db.commands
        ++ [⟨"cmd-" ++ gatewayId ++ "-" ++ resourceId ++ "-" ++ toString now,
            gatewayId, resourceId, ct, v, CommandStatus.pending, none, now,
            none⟩]
  ∧ (commandsCreate db gatewayId resourceId ct v now).1.gateways
      = db.gateways := by
  unfold commandsCreate createCommand
  rw [hfresh]
  exact ⟨rfl, rfl, rfl⟩

/-- Witness for C2 on a database with no gateways. -/
theorem c2_create_unchecked_witness :
    (commandsCreate emptyDb "gX" "rX" CommandType.write (some "reboot") 3).2
      = some ⟨"cmd-" ++ "gX" ++ "-" ++ "rX" ++ "-" ++ toString 3, "gX", "rX",
          CommandType.write, some "reboot", CommandStatus.pending, none, 3,
          none⟩
  ∧ (commandsCreate emptyDb "gX" "rX" CommandType.write (some "reboot") 3).1.commands
      = emptyDb.commands
        ++ [⟨"cmd-" ++ "gX" ++ "-" ++ "rX" ++ "-" ++ toString 3, "gX", "rX",
            CommandType.write, some "reboot", CommandStatus.pending, none, 3,
            none⟩]
  ∧ (commandsCreate emptyDb "gX" "rX" CommandType.write (some "reboot") 3).1.gateways
      = emptyDb.gateways :=
  c2_create_unchecked emptyDb "gX" "rX" CommandType.write (some "reboot") 3
    (by decide)

/-- C3 amended: updateCommandStatus applies the requested status
unconditionally — no monotonicity is enforced, and in particular a command
already in the terminal success state is moved back to pending by an update
requesting pending. -/
theorem c3_update_unconditional (db : Db) (i : String) (now : Nat)
    (c : CommandRow) (hc : c ∈ db.commands) (hid : c.id = i)
    (_hst : c.status = CommandStatus.success) :
    ∃ c2 ∈ (updateCommandStatus db i CommandStatus.pending none now).commands,
      c2.id = i ∧ c2.status = CommandStatus.pending := by
  subst hid
  refine ⟨cmdApply c.id CommandStatus.pending none now c,
    List.mem_map_of_mem _ hc, ?_, ?_⟩
  · simp [cmdApply]
  · simp [cmdApply]

/-- Witness for C3 on the success-state command of dbC3. -/
theorem c3_update_unconditional_witness :
    ∃ c2 ∈ (updateCommandStatus dbC3 "c1" CommandStatus.pending none 9).commands,
      c2.id = "c1" ∧ c2.status = CommandStatus.pending :=
  c3_update_unconditional dbC3 "c1" 9
    ⟨"c1", "g1", "r1", CommandType.read, none, CommandStatus.success, none, 0,
      some 5⟩
    (by decide) rfl rfl

/-- The result of refreshing the explicitly deregistered endpoint e of
sC4. -/
def c4Res : HandlerResult := handleUpdate sC4 ["rd", "gw-e-0"] [("ep", "e")] 9

/-- C4 counterexample: for an explicitly deregistered endpoint (gateway
record present with status offline, endpoint absent from registeredClients)
the Update handler does NOT return 4.04 NotFound: it answers 2.04, sets the
gateway back online, re-adds the endpoint to registeredClients and emits a
client-updated event — a full re-registration side effect. -/
theorem c4_counterexample :
    c4Res.code = "2.04"
  ∧ c4Res.code ≠ "4.04"
  ∧ isClientRegistered c4Res.state "e" = true
  ∧ (getGatewayByEndpoint c4Res.state.db "e").map (fun g => g.status)
      = some GatewayStatus.online
  ∧ c4Res.state ≠ sC4
  ∧ c4Res.events = [LwEvent.clientUpdated "e"] := by
  refine ⟨by decide, by decide, by decide, by decide, by decide, by decide⟩

/-- C4 amended: the Update handler returns 4.04 NotFound with no side
effects only when no gateway record exists for the endpoint (never
registered); when a record exists — even for an explicitly deregistered
device — the update succeeds with 2.04, sets the gateway online and re-adds
the endpoint to the registeredClients map. -/
theorem c4_refresh_amended (s : ServerState) (pathParts : List String)
    (query : List (String × String)) (now : Nat) (ep : String)
    (hpath : (pathParts.length < 2 || !(pathParts.headD "" == "rd")) = false)
    (hep : jsTruthy (lookupQ query "ep") = some ep) :
    (getGatewayByEndpoint s.db ep = none →
        handleUpdate s pathParts query now = ⟨s, "4.04", []⟩)
  ∧ (∀ g, getGatewayByEndpoint s.db ep = some g →
        (handleUpdate s pathParts query now).code = "2.04"
      ∧ isClientRegistered (handleUpdate s pathParts query now).state ep = true
      ∧ (getGatewayByEndpoint (handleUpdate s pathParts query now).state.db
          ep).map (fun g2 => g2.status) = some GatewayStatus.online) := by
  constructor
  · intro hg
    exact handleUpdate_unknown s pathParts query now ep hpath hep hg
  · intro g hg
    rw [handleUpdate_known s pathParts query now ep g hpath hep hg]
    exact ⟨rfl, isClientRegistered_setClient _ _ _ _,
      status_after_update s.db ep g GatewayStatus.online now none hg⟩

/-- Witness for C4 on the deregistered device of sC4. -/
theorem c4_refresh_amended_witness :
    (handleUpdate sC4 ["rd", "gw-e-0"] [("ep", "e")] 9).code = "2.04"
  ∧ isClientRegistered
      (handleUpdate sC4 ["rd", "gw-e-0"] [("ep", "e")] 9).state "e" = true
  ∧ (getGatewayByEndpoint
      (handleUpdate sC4 ["rd", "gw-e-0"] [("ep", "e")] 9).state.db "e").map
      (fun g2 => g2.status) = some GatewayStatus.online :=
  (c4_refresh_amended sC4 ["rd", "gw-e-0"] [("ep", "e")] 9 "e" (by decide)
      (by decide)).2
    ⟨"gw-e-0", "e", "e", some "1.2.3.4", GatewayStatus.offline, some 3,
      "system", some "e"⟩
    (by decide)

/-- C5: whenever a registration request is answered 2.01 (successful
register), the endpoint is in the registeredClients map (isClientRegistered)
and an immediate lookup of the device by endpoint returns a gateway whose
status is online — the Registered state of the spec. -/
theorem c5_register_then_registered (s : ServerState)
    (query : List (String × String)) (rsAddr : Option String) (now : Nat)
    (ep : String)
    (hep : jsTruthy (lookupQ query "ep") = some ep)
    (hok : (handleRegistration s query rsAddr now).code = "2.01") :
    isClientRegistered (handleRegistration s query rsAddr now).state ep = true
  ∧ (getGatewayByEndpoint (handleRegistration s query rsAddr now).state.db
      ep).map (fun g => g.status) = some GatewayStatus.online := by
  cases hg : getGatewayByEndpoint s.db ep with
  | some g =>
      rw [handleRegistration_found s query rsAddr now ep g hep hg]
      exact ⟨isClientRegistered_setClient _ _ _ _,
        status_after_update s.db ep g GatewayStatus.online now _ hg⟩
  | none =>
      by_cases hdup : (s.db.gateways.any (fun g =>
          g.id == ("gw-" ++ ep ++ "-" ++ toString now) || g.endpoint == ep))
        = true
      · rw [handleRegistration_dup s query rsAddr now ep hep hg hdup] at hok
        have hne : ("5.00" : String) ≠ "2.01" := by decide
        exact absurd hok hne
      · have hdup2 : (s.db.gateways.any (fun g =>
            g.id == ("gw-" ++ ep ++ "-" ++ toString now)
              || g.endpoint == ep)) = false := by
          revert hdup
          cases s.db.gateways.any (fun g =>
            g.id == ("gw-" ++ ep ++ "-" ++ toString now) || g.endpoint == ep)
          · intro _
            rfl
          · intro hcontra
            exact absurd rfl hcontra
        rw [handleRegistration_new s query rsAddr now ep hep hg hdup2]
        have hleft : getGatewayByEndpoint
            { s.db with gateways := s.db.gateways ++ [regRow ep rsAddr now] }
            ep = some (regRow ep rsAddr now) := by
          unfold getGatewayByEndpoint at hg ⊢
          show (s.db.gateways ++ [regRow ep rsAddr now]).find?
            (fun g => g.endpoint == ep) = some (regRow ep rsAddr now)
          rw [List.find?_append, hg]
          simp [regRow]
        have hid : ("gw-" ++ ep ++ "-" ++ toString now)
            = (regRow ep rsAddr now).id := rfl
        refine ⟨isClientRegistered_setClient _ _ _ _, ?_⟩
        rw [hid]
        exact status_after_update _ ep (regRow ep rsAddr now)
          GatewayStatus.online now _ hleft

/-- Witness for C5: register rv50x-01 on an empty server. -/
theorem c5_register_then_registered_witness :
    isClientRegistered
      (handleRegistration ⟨emptyDb, []⟩ [("ep", "rv50x-01")] (some "9.9.9.9")
        0).state "rv50x-01" = true
  ∧ (getGatewayByEndpoint
      (handleRegistration ⟨emptyDb, []⟩ [("ep", "rv50x-01")] (some "9.9.9.9")
        0).state.db "rv50x-01").map (fun g => g.status)
      = some GatewayStatus.online :=
  c5_register_then_registered ⟨emptyDb, []⟩ [("ep", "rv50x-01")]
    (some "9.9.9.9") 0 "rv50x-01" (by decide) (by decide)

/-- C6 amended: createAlert inserts unconditionally (subject only to id
uniqueness) — raising an alert always appends one more row and in particular
increments the count of unresolved alerts of that type for that gateway by
one, even when an unresolved alert of the same type already exists; no
idempotence is enforced. -/
theorem c6_alert_not_idempotent (db : Db) (inp : CreateAlertInput) (now : Nat)
    (hfresh : (db.alerts.any (fun a => a.id == inp.id)) = false) :
    (createAlert db inp now).1.alerts
      = db.alerts
        ++ [⟨inp.id, inp.gatewayId, inp.alertType, inp.severity, inp.message,
            false, now, none⟩]
  ∧ ((createAlert db inp now).1.alerts.filter (fun a =>
        a.gatewayId == inp.gatewayId && a.alertType == inp.alertType
          && a.isResolved == false)).length
      = (db.alerts.filter (fun a =>
          a.gatewayId == inp.gatewayId && a.alertType == inp.alertType
            && a.isResolved == false)).length + 1 := by
  have h1 : (createAlert db inp now).1.alerts
      = db.alerts
        ++ [⟨inp.id, inp.gatewayId, inp.alertType, inp.severity, inp.message,
            false, now, none⟩] := by
    unfold createAlert
    rw [hfresh]
    rfl
  refine ⟨h1, ?_⟩
  rw [h1, List.filter_append]
  simp

/-- Witness for C6 on dbC6, which already holds an unresolved offline alert
for g1: the unresolved-offline count goes from 1 to 2. -/
theorem c6_alert_not_idempotent_witness :
    (createAlert dbC6
        ⟨"a2", "g1", AlertType.offline, Severity.warning, "down"⟩ 5).1.alerts
      = dbC6.alerts
        ++ [⟨"a2", "g1", AlertType.offline, Severity.warning, "down", false,
            5, none⟩]
  ∧ ((createAlert dbC6
        ⟨"a2", "g1", AlertType.offline, Severity.warning, "down"⟩
        5).1.alerts.filter (fun a =>
          a.gatewayId == "g1" && a.alertType == AlertType.offline
            && a.isResolved == false)).length
      = (dbC6.alerts.filter (fun a =>
          a.gatewayId == "g1" && a.alertType == AlertType.offline
            && a.isResolved == false)).length + 1 :=
  c6_alert_not_idempotent dbC6
    ⟨"a2", "g1", AlertType.offline, Severity.warning, "down"⟩ 5 (by decide)

theorem alertApply_alertApply (i : String) (n1 n2 : Nat) (a : AlertRow) :
    alertApply i n2 (alertApply i n1 a) = alertApply i n2 a := by
  unfold alertApply
  by_cases h : (a.id == i) = true
  · simp [h]
  · simp [h]

/-- C7 amended: resolveAlert sets isResolved = true and resolvedAt = now
unconditionally; it is not a no-op on an already-resolved alert — a second
resolve overwrites resolvedAt, so resolving twice equals a single resolve at
the later time (last write wins) and only isResolved, not resolvedAt, is
preserved. -/
theorem c7_resolve_overwrites (db : Db) (i : String) (n1 n2 : Nat) :
    resolveAlert (resolveAlert db i n1) i n2 = resolveAlert db i n2
  ∧ ∀ a, a ∈ (resolveAlert db i n2).alerts → a.id = i →
      a.isResolved = true ∧ a.resolvedAt = some n2 := by
  constructor
  · have hmap : ∀ l : List AlertRow,
        (l.map (alertApply i n1)).map (alertApply i n2)
          = l.map (alertApply i n2) := by
      intro l
      induction l with
      | nil => rfl
      | cons a t ih => simp [ih, alertApply_alertApply]
    show Db.mk db.gateways db.resourceValues db.commands
        ((db.alerts.map (alertApply i n1)).map (alertApply i n2))
      = Db.mk db.gateways db.resourceValues db.commands
        (db.alerts.map (alertApply i n2))
    rw [hmap]
  · intro a ha hid
    obtain ⟨b, hb, rfl⟩ := List.mem_map.mp ha
    unfold alertApply at hid ⊢
    by_cases h : (b.id == i) = true
    · simp [h]
    · rw [if_neg h] at hid
      exact absurd (by simp [hid] : (b.id == i) = true) h

/-- Witness for C7 on the already-resolved alert of dbC7: resolving at time
3 then 8 equals resolving once at 8, and the row carries resolvedAt 8. -/
theorem c7_resolve_overwrites_witness :
    resolveAlert (resolveAlert dbC7 "a1" 3) "a1" 8 = resolveAlert dbC7 "a1" 8
  ∧ ((⟨"a1", "g1", AlertType.offline, Severity.warning, "down", true, 0,
        some 8⟩ : AlertRow).isResolved = true
    ∧ (⟨"a1", "g1", AlertType.offline, Severity.warning, "down", true, 0,
        some 8⟩ : AlertRow).resolvedAt = some 8) :=
  ⟨(c7_resolve_overwrites dbC7 "a1" 3 8).1,
    (c7_resolve_overwrites dbC7 "a1" 3 8).2
      ⟨"a1", "g1", AlertType.offline, Severity.warning, "down", true, 0,
        some 8⟩ (by decide) rfl⟩

/-- C8 amended: listPendingCommands filters only on gatewayId and
status = pending — the registration state of the device is never consulted,
so every pending command of a known but non-Registered device is still
yielded. -/
theorem c8_pending_regardless (db : Db) (gid : String) (g : GatewayRow)
    (c : CommandRow) (_hgw : getGateway db gid = some g)
    (_hns : g.status ≠ GatewayStatus.online)
    (hc : c ∈ db.commands) (hgid : c.gatewayId = gid)
    (hp : c.status = CommandStatus.pending) :
    c ∈ listPendingCommands db gid := by
  unfold listPendingCommands
  refine List.mem_filter.mpr ⟨hc, ?_⟩
  simp [hgid, hp]

/-- Witness for C8 on dbC8, whose device g1 is offline and unregistered yet
whose pending command is listed. -/
theorem c8_pending_regardless_witness :
    (⟨"c1", "g1", "r1", CommandType.read, none, CommandStatus.pending, none,
      0, none⟩ : CommandRow) ∈ listPendingCommands dbC8 "g1" :=
  c8_pending_regardless dbC8 "g1"
    ⟨"g1", "d", "e1", none, GatewayStatus.offline, some 0, "system", none⟩
    ⟨"c1", "g1", "r1", CommandType.read, none, CommandStatus.pending, none,
      0, none⟩
    (by decide) (by decide) (by decide) rfl rfl
